import Mathlib

/-!
# common/configtx/initializer.go

A shallow embedding of the chain initializer of `common/configtx`: the resource
bundle (`resources`), the root transaction coordinator (`initializer`) and
the import adapter around the policy manager (`importHack`).

Go pointers are addresses (`Ptr`).  The packages the file imports
(`policies`, `cauthdsl`, `configtxmsp`, `configtxchannel`, `configtxorderer`,
`configtxapplication`, `cb`) are not part of the file; their methods are the
fields of `Collaborators`, acting on an arbitrary world `W` that holds the state
of every object they own.  Each method call the file makes on such an object is
also recorded in `State.calls`.
-/

namespace configtx

/-- A Go pointer: the address of an object. -/
abbrev Ptr := Nat

/-- A Go `error` value: `none` is `nil`, `some msg` an error with that message. -/
abbrev error := Option String

/-- A Go slice as a returned value: `none` is the `nil` slice. -/
abbrev Slice (α : Type) := Option (List α)

/-- Go `len` of a slice (`len(nil) = 0`). -/
def len {α : Type} : Slice α → Nat
  | none => 0
  | some l => l.length

/-- The elements a `range` over the slice visits, in order. -/
def elems {α : Type} : Slice α → List α
  | none => []
  | some l => l

/-- The four methods of the handler capability (`api.Handler`). -/
inductive Method
  | BeginConfig
  | ProposeConfig
  | RollbackConfig
  | CommitConfig
  deriving DecidableEq, Repr

/-- One method call made on an object of an imported package. -/
structure Call where
  receiver : Ptr
  method : Method
  deriving DecidableEq, Repr

/-- The program state: the world of the imported packages and the log of calls made on it. -/
structure State (W : Type) where
  world : W
  calls : List Call

/-- How a Go call ends: it returns a value or it panics. -/
inductive Outcome (α : Type)
  | returned (a : α)
  | panicked (msg : String)
  deriving DecidableEq, Repr

/-- Go `type resources struct`: five pointers to the sub-managers. -/
structure resources where
  policyManager : Ptr
  channelConfig : Ptr
  ordererConfig : Ptr
  applicationConfig : Ptr
  mspConfigHandler : Ptr
  deriving DecidableEq, Repr

/-- Go `type initializer struct`: the embedded `*resources` and the map `is`
(`none` is the nil map; the file never assigns it). -/
structure initializer where
  resources : resources
  is : Option (List (String × Ptr))
  deriving DecidableEq, Repr

/-- Go `type importHack struct`: the embedded `*policies.ManagerImpl`. -/
structure importHack where
  ManagerImpl : Ptr
  deriving DecidableEq, Repr

/-- A value of the interface `api.Handler`: the nil interface, a pointer to a handler
object of an imported package, or a pointer to an `importHack`. -/
inductive Handler
  | nil
  | object (p : Ptr)
  | importHack (ih : importHack)
  deriving DecidableEq, Repr

/-- The constants of `cb.Policy_PolicyType` the file names. -/
structure PolicyTypes where
  Policy_UNKNOWN : Int
  Policy_SIGNATURE : Int
  Policy_MSP : Int
  deriving DecidableEq, Repr

/-- Go `map[int32]policies.Provider`, as the list of its entries (one per key). -/
abbrev ProviderMap := List (Int × Ptr)

/-- Go `m[k] = v` on a Go map: replaces the entry of `k`, or adds one. -/
def ProviderMap.set (m : ProviderMap) (k : Int) (v : Ptr) : ProviderMap :=
  if m.any (fun e => e.1 == k) then
    m.map (fun e => if e.1 == k then (k, v) else e)
  else
    m ++ [(k, v)]

/-- Go `m[k]` on a Go map with the comma-ok form. -/
def ProviderMap.get (m : ProviderMap) (k : Int) : Option Ptr :=
  (m.find? (fun e => e.1 == k)).map Prod.snd

/-- The functions and methods of the imported packages that the file calls.
`W` is the state of all their objects, `V` the type `*cb.ConfigValue`. -/
structure Collaborators (W V : Type) where
  /-- Go `(*configtxmsp.MSPConfigHandler).BeginConfig()` -/
  mspBeginConfig : Ptr → W → W
  /-- Go `(*configtxmsp.MSPConfigHandler).RollbackConfig()` -/
  mspRollbackConfig : Ptr → W → W
  /-- Go `(*configtxmsp.MSPConfigHandler).CommitConfig()` -/
  mspCommitConfig : Ptr → W → W
  /-- Go `(*policies.ManagerImpl).BeginConfig(groups)` -/
  policyBeginConfig : Ptr → List String → W → (Slice Ptr × error) × W
  /-- Go `BeginConfig(groups)` of the handler object at the pointer -/
  objectBeginConfig : Ptr → List String → W → (Slice Handler × error) × W
  /-- Go `ProposeConfig(key, value)` of the handler object at the pointer -/
  objectProposeConfig : Ptr → String → V → W → error × W
  /-- Go `&configtxmsp.MSPConfigHandler{}` -/
  newMSPConfigHandler : W → Ptr × W
  /-- Go `cauthdsl.NewPolicyProvider(deserializer)` -/
  NewPolicyProvider : Ptr → W → Ptr × W
  /-- Go `configtxorderer.NewManagerImpl(mspConfigHandler)` -/
  ordererNewManagerImpl : Ptr → W → Ptr × W
  /-- Go `configtxapplication.NewSharedConfigImpl(mspConfigHandler)` -/
  applicationNewSharedConfigImpl : Ptr → W → Ptr × W
  /-- Go `policies.NewManagerImpl(providers)` -/
  policiesNewManagerImpl : ProviderMap → W → Ptr × W
  /-- Go `configtxchannel.NewSharedConfigImpl(ordererConfig, applicationConfig)` -/
  channelNewSharedConfigImpl : Ptr → Ptr → W → Ptr × W

section Embedding

variable {W V : Type}

/-- Appends a call to the log. -/
def State.record (s : State W) (p : Ptr) (m : Method) (w : W) : State W :=
  { world := w, calls := s.calls ++ [{ receiver := p, method := m }] }

/-- Go `func (r *resources) PolicyManager() policies.Manager` -/
def resources.PolicyManager (r : resources) : Ptr := r.policyManager

/-- Go `func (r *resources) ChannelConfig() api.ChannelConfig` -/
def resources.ChannelConfig (r : resources) : Ptr := r.channelConfig

/-- Go `func (r *resources) OrdererConfig() api.OrdererConfig` -/
def resources.OrdererConfig (r : resources) : Ptr := r.ordererConfig

/-- Go `func (r *resources) ApplicationConfig() api.ApplicationConfig` -/
def resources.ApplicationConfig (r : resources) : Ptr := r.applicationConfig

/-- Go `func (r *resources) MSPManager() msp.MSPManager` -/
def resources.MSPManager (r : resources) : Ptr := r.mspConfigHandler

/-- One iteration of the `for pType := range cb.Policy_PolicyType_name` loop of
`newResources`: the `switch` on the policy type. -/
def newResources.visit (c : Collaborators W V) (t : PolicyTypes) (mspConfigHandler : Ptr)
    (acc : ProviderMap × W) (pType : Int) : ProviderMap × W :=
  if pType = t.Policy_UNKNOWN then
    acc
  else if pType = t.Policy_SIGNATURE then
    let (provider, w) := c.NewPolicyProvider mspConfigHandler acc.2
    (acc.1.set pType provider, w)
  else if pType = t.Policy_MSP then
    acc
  else
    acc

/-- The loop of `newResources` that fills `policyProviderMap`; `keys` are the keys of
`cb.Policy_PolicyType_name` in the order the `range` visits them. -/
def newResources.policyProviderMap (c : Collaborators W V) (t : PolicyTypes) (keys : List Int)
    (mspConfigHandler : Ptr) (w : W) : ProviderMap × W :=
  keys.foldl (newResources.visit c t mspConfigHandler) ([], w)

/-- Go `func newResources() *resources` -/
def newResources (c : Collaborators W V) (t : PolicyTypes) (keys : List Int) (w : W) :
    resources × W :=
  let (mspConfigHandler, w1) := c.newMSPConfigHandler w
  let (policyProviderMap, w2) := newResources.policyProviderMap c t keys mspConfigHandler w1
  let (ordererConfig, w3) := c.ordererNewManagerImpl mspConfigHandler w2
  let (applicationConfig, w4) := c.applicationNewSharedConfigImpl mspConfigHandler w3
  let (policyManager, w5) := c.policiesNewManagerImpl policyProviderMap w4
  let (channelConfig, w6) := c.channelNewSharedConfigImpl ordererConfig applicationConfig w5
  ({ policyManager := policyManager
     channelConfig := channelConfig
     ordererConfig := ordererConfig
     applicationConfig := applicationConfig
     mspConfigHandler := mspConfigHandler }, w6)

/-- Go `func NewInitializer() api.Initializer` -/
def NewInitializer (c : Collaborators W V) (t : PolicyTypes) (keys : List Int) (w : W) :
    initializer × W :=
  let (r, w1) := newResources c t keys w
  ({ resources := r, is := none }, w1)

/-- Go `i.mspConfigHandler.BeginConfig()` -/
def MSPConfigHandler.BeginConfig (c : Collaborators W V) (p : Ptr) (s : State W) : State W :=
  s.record p Method.BeginConfig (c.mspBeginConfig p s.world)

/-- Go `i.mspConfigHandler.RollbackConfig()` -/
def MSPConfigHandler.RollbackConfig (c : Collaborators W V) (p : Ptr) (s : State W) : State W :=
  s.record p Method.RollbackConfig (c.mspRollbackConfig p s.world)

/-- Go `i.mspConfigHandler.CommitConfig()` -/
def MSPConfigHandler.CommitConfig (c : Collaborators W V) (p : Ptr) (s : State W) : State W :=
  s.record p Method.CommitConfig (c.mspCommitConfig p s.world)

/-- Go `ih.ManagerImpl.BeginConfig(groups)` -/
def ManagerImpl.BeginConfig (c : Collaborators W V) (p : Ptr) (groups : List String)
    (s : State W) : (Slice Ptr × error) × State W :=
  let r := c.policyBeginConfig p groups s.world
  (r.1, s.record p Method.BeginConfig r.2)

/-- Go `func (i *initializer) BeginConfig(groups []string) ([]api.Handler, error)`.
`logger` is declared elsewhere in the package; its `Panicf` logs the message and panics. -/
def initializer.BeginConfig (c : Collaborators W V) (i : initializer) (groups : List String)
    (s : State W) : Outcome (Slice Handler × error) × State W :=
  if groups.length ≠ 1 then
    (Outcome.panicked "Initializer only supports having one root group", s)
  else
    let s1 := MSPConfigHandler.BeginConfig c i.resources.mspConfigHandler s
    (Outcome.returned (some [Handler.object i.resources.channelConfig], none), s1)

/-- Go `func (i *initializer) RollbackConfig()` -/
def initializer.RollbackConfig (c : Collaborators W V) (i : initializer) (s : State W) :
    State W :=
  MSPConfigHandler.RollbackConfig c i.resources.mspConfigHandler s

/-- Go `func (i *initializer) CommitConfig()` -/
def initializer.CommitConfig (c : Collaborators W V) (i : initializer) (s : State W) :
    State W :=
  MSPConfigHandler.CommitConfig c i.resources.mspConfigHandler s

/-- The `for i, policyManager := range policyManagers` loop of `importHack.BeginConfig`:
`handlers[i] = &importHack{ManagerImpl: policyManager}` from index `i` on. -/
def importHack.BeginConfig.fill : List Ptr → Nat → List Handler → List Handler
  | [], _, handlers => handlers
  | policyManager :: rest, i, handlers =>
    importHack.BeginConfig.fill rest (i + 1)
      (handlers.set i (Handler.importHack { ManagerImpl := policyManager }))

/-- Go `func (ih importHack) BeginConfig(groups []string) ([]api.Handler, error)` -/
def importHack.BeginConfig (c : Collaborators W V) (ih : importHack) (groups : List String)
    (s : State W) : (Slice Handler × error) × State W :=
  let r := ManagerImpl.BeginConfig c ih.ManagerImpl groups s
  let policyManagers := r.1.1
  let err := r.1.2
  if err ≠ none then
    ((none, err), r.2)
  else
    let handlers := List.replicate (len policyManagers) Handler.nil
    let handlers := importHack.BeginConfig.fill (elems policyManagers) 0 handlers
    ((some handlers, err), r.2)

/-- Go `func (ih importHack) ProposeConfig(key string, value *cb.ConfigValue) error` -/
def importHack.ProposeConfig (_ih : importHack) (_key : String) (_value : V) (s : State W) :
    error × State W :=
  (some "Temporary hack", s)

/-- Go `func (i *initializer) PolicyHandler() api.PolicyHandler` -/
def initializer.PolicyHandler (i : initializer) : importHack :=
  { ManagerImpl := i.resources.policyManager }

/-- Go `func (i *initializer) ProposeConfig(key string, value *cb.ConfigValue) error` -/
def initializer.ProposeConfig (_i : initializer) (_key : String) (_value : V) (s : State W) :
    error × State W :=
  (some "Programming error, this should never be invoked", s)

/-- Go `h.BeginConfig(groups)` on an interface value: dispatch on the dynamic type. -/
def Handler.BeginConfig (c : Collaborators W V) (h : Handler) (groups : List String)
    (s : State W) : Outcome (Slice Handler × error) × State W :=
  match h with
  | Handler.nil => (Outcome.panicked "invalid memory address or nil pointer dereference", s)
  | Handler.object p =>
    let r := c.objectBeginConfig p groups s.world
    (Outcome.returned r.1, s.record p Method.BeginConfig r.2)
  | Handler.importHack ih =>
    let r := importHack.BeginConfig c ih groups s
    (Outcome.returned r.1, r.2)

/-- Go `h.ProposeConfig(key, value)` on an interface value: dispatch on the dynamic type. -/
def Handler.ProposeConfig (c : Collaborators W V) (h : Handler) (key : String) (value : V)
    (s : State W) : Outcome error × State W :=
  match h with
  | Handler.nil => (Outcome.panicked "invalid memory address or nil pointer dereference", s)
  | Handler.object p =>
    let r := c.objectProposeConfig p key value s.world
    (Outcome.returned r.1, s.record p Method.ProposeConfig r.2)
  | Handler.importHack ih =>
    let r := importHack.ProposeConfig ih key value s
    (Outcome.returned r.1, r.2)

/-- A caller's sequence of `ProposeConfig` calls, each on a handler value, run in order
whatever each call returns. -/
def proposeAll (c : Collaborators W V) : List (Handler × String × V) → State W → State W
  | [], s => s
  | p :: rest, s => proposeAll c rest (Handler.ProposeConfig c p.1 p.2.1 p.2.2 s).2

/-- The handlers below a handler value: those a successful `BeginConfig` on it returns, and
the handlers below these, for any group names and in any state. -/
inductive Below (c : Collaborators W V) : Handler → Handler → Prop
  | child {h h1 : Handler} {groups : List String} {s s1 : State W} {hs : List Handler} :
      Handler.BeginConfig c h groups s = (Outcome.returned (some hs, none), s1) →
      h1 ∈ hs → Below c h h1
  | deeper {h h1 h2 : Handler} : Below c h h1 → Below c h1 h2 → Below c h h2

end Embedding

/-! ## A concrete world, for evaluating the code -/

/-- Modelled from the spec: a ConfigHandler node (section 3).  The handler packages are not
in this file.  A node has the values readers see, the values staged since the last Begin
(`none` while Idle, `some` while InProgress) and the child groups it recognizes with the
handler of each. -/
structure Node where
  visible : List (String × Nat)
  staged : Option (List (String × Nat))
  children : List (String × Ptr)
  deriving DecidableEq, Repr

/-- Modelled from the spec: an Idle node with no value and no child. -/
def Node.idle : Node := { visible := [], staged := none, children := [] }

/-- Modelled from the spec: the handler objects of a bundle, by address, and the next free
address. -/
structure World where
  next : Ptr
  objects : Ptr → Node

/-- Stores a node at an address. -/
def World.put (w : World) (p : Ptr) (n : Node) : World :=
  { next := w.next, objects := fun q => if q = p then n else w.objects q }

/-- Allocates a node at the next free address. -/
def World.alloc (w : World) (n : Node) : Ptr × World :=
  (w.next, { next := w.next + 1, objects := fun q => if q = w.next then n else w.objects q })

/-- The world with no object. -/
def World.empty : World := { next := 0, objects := fun _ => Node.idle }

/-- Modelled from the spec: Begin of a node that takes no group names (the membership
handler): Idle → InProgress with nothing staged. -/
def Node.begin (n : Node) : Node := { n with staged := some [] }

/-- Modelled from the spec: Rollback discards all staged state since the last Begin. -/
def Node.rollback (n : Node) : Node := { n with staged := none }

/-- Modelled from the spec: Commit makes all staged state since the last Begin visible. -/
def Node.commit (n : Node) : Node :=
  { n with visible := n.visible ++ (n.staged.getD []), staged := none }

/-- Modelled from the spec: Begin with child group names returns one child handler per
recognized child, in the order requested, or fails if an unrecognized child is present. -/
def Node.beginGroups (n : Node) (groups : List String) : Slice Ptr × error × Node :=
  if groups.all (fun g => (n.children.lookup g).isSome) then
    (some (groups.filterMap (fun g => n.children.lookup g)), none, n.begin)
  else
    (none, some "unrecognized child group", n)

/-- Modelled from the spec: Propose stages a key/value pair without making it visible; it
is not accepted outside InProgress. -/
def Node.propose (n : Node) (key : String) (value : Nat) : error × Node :=
  match n.staged with
  | none => (some "no transaction in progress", n)
  | some l => (none, { n with staged := some (l ++ [(key, value)]) })

/-- Modelled from the spec: the handler contract of section 3 for every object of the
imported packages, each constructor allocating an Idle node. -/
def Model.collaborators : Collaborators World Nat where
  mspBeginConfig := fun p w => w.put p (w.objects p).begin
  mspRollbackConfig := fun p w => w.put p (w.objects p).rollback
  mspCommitConfig := fun p w => w.put p (w.objects p).commit
  policyBeginConfig := fun p groups w =>
    let r := (w.objects p).beginGroups groups
    ((r.1, r.2.1), w.put p r.2.2)
  objectBeginConfig := fun p groups w =>
    let r := (w.objects p).beginGroups groups
    ((r.1.map (fun l => l.map Handler.object), r.2.1), w.put p r.2.2)
  objectProposeConfig := fun p key value w =>
    let r := (w.objects p).propose key value
    (r.1, w.put p r.2)
  newMSPConfigHandler := fun w => w.alloc Node.idle
  NewPolicyProvider := fun _ w => w.alloc Node.idle
  ordererNewManagerImpl := fun _ w => w.alloc Node.idle
  applicationNewSharedConfigImpl := fun _ w => w.alloc Node.idle
  policiesNewManagerImpl := fun _ w => w.alloc Node.idle
  channelNewSharedConfigImpl := fun ordererConfig applicationConfig w =>
    w.alloc { Node.idle with
      children := [("Orderer", ordererConfig), ("Application", applicationConfig)] }

/-- The numbering of the policy types used for evaluation. -/
def Model.types : PolicyTypes :=
  { Policy_UNKNOWN := 0, Policy_SIGNATURE := 1, Policy_MSP := 2 }

/-- A bundle as `NewInitializer` builds it in the empty world. -/
def Model.bundle : initializer × World :=
  NewInitializer Model.collaborators Model.types [0, 1, 2] World.empty

/-- The state right after `NewInitializer`: no call made yet. -/
def Model.start : State World := { world := Model.bundle.2, calls := [] }

/-- The first handler of a returned handler list (the nil interface if there is none). -/
def Model.first : Outcome (Slice Handler × error) → Handler
  | Outcome.returned (some (h :: _), _) => h
  | _ => Handler.nil

/-- One transaction of a caller on the bundle: `BeginConfig` on the coordinator, then on
the handler it returned a `BeginConfig` with no sub-group and one `ProposeConfig`. -/
def Model.staged : State World :=
  let b := initializer.BeginConfig Model.collaborators Model.bundle.1 ["Channel"] Model.start
  let h := Model.first b.1
  let s1 := (Handler.BeginConfig Model.collaborators h [] b.2).2
  proposeAll Model.collaborators [(h, "BatchSize", 10)] s1

/-- A further transaction of a caller, run from a state `s`: `BeginConfig` on the
coordinator, then one `ProposeConfig` on the handler it returned and nothing else. -/
def Model.stagedAgain (s : State World) : State World :=
  let b := initializer.BeginConfig Model.collaborators Model.bundle.1 ["Channel"] s
  proposeAll Model.collaborators [(Model.first b.1, "BatchTimeout", 2)] b.2

/-- A world in which the policy manager at address 0 recognizes two child groups. -/
def Model.policyWorld : State World :=
  { world := World.empty.put 0
      { Node.idle with children := [("Readers", 10), ("Writers", 11)] },
    calls := [] }

/-! ## The policy-provider mapping -/

section Registry

variable {W V : Type}

/-- A policy type other than SIGNATURE registers nothing. -/
theorem visit_of_ne (c : Collaborators W V) (t : PolicyTypes) (msp : Ptr)
    (acc : ProviderMap × W) (pType : Int) (h : pType ≠ t.Policy_SIGNATURE) :
    newResources.visit c t msp acc pType = acc := by
  unfold newResources.visit
  split
  · rfl
  · simp [h]

/-- SIGNATURE, visited while the mapping is empty, registers one provider built from the
membership handler. -/
theorem visit_signature (c : Collaborators W V) (t : PolicyTypes) (msp : Ptr) (w : W)
    (hu : t.Policy_UNKNOWN ≠ t.Policy_SIGNATURE) :
    newResources.visit c t msp ([], w) t.Policy_SIGNATURE =
      ([(t.Policy_SIGNATURE, (c.NewPolicyProvider msp w).1)], (c.NewPolicyProvider msp w).2) := by
  simp [newResources.visit, Ne.symm hu, ProviderMap.set]

/-- Keys other than SIGNATURE leave the mapping and the world as they are. -/
theorem foldl_visit_of_not_mem (c : Collaborators W V) (t : PolicyTypes) (msp : Ptr)
    (keys : List Int) (h : t.Policy_SIGNATURE ∉ keys) (acc : ProviderMap × W) :
    keys.foldl (newResources.visit c t msp) acc = acc := by
  induction keys generalizing acc with
  | nil => rfl
  | cons k ks ih =>
    have hk : k ≠ t.Policy_SIGNATURE := fun e => h (by simp [e])
    have hks : t.Policy_SIGNATURE ∉ ks := fun hm => h (List.mem_cons_of_mem _ hm)
    rw [List.foldl_cons, visit_of_ne c t msp acc k hk]
    exact ih hks acc

/-- The loop over distinct keys containing SIGNATURE leaves exactly the SIGNATURE entry. -/
theorem policyProviderMap_eq (c : Collaborators W V) (t : PolicyTypes) (keys : List Int)
    (msp : Ptr) (w : W) (hnd : keys.Nodup) (hs : t.Policy_SIGNATURE ∈ keys)
    (hu : t.Policy_UNKNOWN ≠ t.Policy_SIGNATURE) :
    newResources.policyProviderMap c t keys msp w =
      ([(t.Policy_SIGNATURE, (c.NewPolicyProvider msp w).1)], (c.NewPolicyProvider msp w).2) := by
  unfold newResources.policyProviderMap
  induction keys with
  | nil => simp at hs
  | cons k ks ih =>
    rw [List.foldl_cons]
    have hnd2 := List.nodup_cons.mp hnd
    by_cases hk : k = t.Policy_SIGNATURE
    · subst hk
      rw [visit_signature c t msp w hu]
      exact foldl_visit_of_not_mem c t msp ks hnd2.1 _
    · rw [visit_of_ne c t msp _ k hk]
      have hs2 : t.Policy_SIGNATURE ∈ ks := by
        rcases List.mem_cons.mp hs with e | e
        · exact absurd e.symm hk
        · exact e
      exact ih hnd2.2 hs2

/-- C6: for every set of policy types (distinct keys, visited in any order) that contains
SIGNATURE, the mapping `newResources` builds has no entry for UNKNOWN, exactly one entry,
for SIGNATURE, whose provider is built from the membership handler of the bundle, and no
entry for any other type, MSP included; every order of the keys gives the same mapping, and
`newResources` hands that mapping to the policy manager of the bundle it returns. -/
theorem newResources_policyProviderMap (c : Collaborators W V) (t : PolicyTypes)
    (keys : List Int) (msp : Ptr) (w : W) (hnd : keys.Nodup)
    (hs : t.Policy_SIGNATURE ∈ keys) (hu : t.Policy_UNKNOWN ≠ t.Policy_SIGNATURE)
    (hm : t.Policy_MSP ≠ t.Policy_SIGNATURE) :
    (newResources.policyProviderMap c t keys msp w).1 =
        [(t.Policy_SIGNATURE, (c.NewPolicyProvider msp w).1)] ∧
      (newResources.policyProviderMap c t keys msp w).1.get t.Policy_UNKNOWN = none ∧
      (newResources.policyProviderMap c t keys msp w).1.get t.Policy_SIGNATURE =
        some (c.NewPolicyProvider msp w).1 ∧
      (newResources.policyProviderMap c t keys msp w).1.get t.Policy_MSP = none ∧
      (∀ k : Int, k ≠ t.Policy_SIGNATURE →
        (newResources.policyProviderMap c t keys msp w).1.get k = none) ∧
      (∀ keys2 : List Int, keys2.Perm keys →
        newResources.policyProviderMap c t keys2 msp w =
          newResources.policyProviderMap c t keys msp w) ∧
      ∀ w0 : W,
        (newResources c t keys w0).1.mspConfigHandler = (c.newMSPConfigHandler w0).1 ∧
          (newResources c t keys w0).1.policyManager =
            (c.policiesNewManagerImpl
              [(t.Policy_SIGNATURE,
                (c.NewPolicyProvider (c.newMSPConfigHandler w0).1
                  (c.newMSPConfigHandler w0).2).1)]
              (c.applicationNewSharedConfigImpl (c.newMSPConfigHandler w0).1
                (c.ordererNewManagerImpl (c.newMSPConfigHandler w0).1
                  (c.NewPolicyProvider (c.newMSPConfigHandler w0).1
                    (c.newMSPConfigHandler w0).2).2).2).2).1 := by
  have hmap := policyProviderMap_eq c t keys msp w hnd hs hu
  have hget : ∀ k : Int, k ≠ t.Policy_SIGNATURE →
      ProviderMap.get [(t.Policy_SIGNATURE, (c.NewPolicyProvider msp w).1)] k = none := by
    intro k hk
    have hbeq : (t.Policy_SIGNATURE == k) = false := by
      simpa using Ne.symm hk
    simp [ProviderMap.get, List.find?, hbeq]
  refine ⟨by rw [hmap], ?_, ?_, ?_, ?_, ?_, ?_⟩
  · rw [hmap]; exact hget _ hu
  · rw [hmap]; simp [ProviderMap.get, List.find?]
  · rw [hmap]; exact hget _ hm
  · intro k hk
    rw [hmap]; exact hget k hk
  · intro keys2 hperm
    rw [hmap]
    exact policyProviderMap_eq c t keys2 msp w (hperm.nodup_iff.mpr hnd)
      (hperm.mem_iff.mpr hs) hu
  · intro w0
    have hmap0 := policyProviderMap_eq c t keys (c.newMSPConfigHandler w0).1
      (c.newMSPConfigHandler w0).2 hnd hs hu
    simp [newResources, hmap0]

/-- Witness of C6: the three types numbered 0, 1, 2 and visited in the order 2, 0, 1. -/
theorem newResources_policyProviderMap_witness :
    ([2, 0, 1] : List Int).Nodup ∧ Model.types.Policy_SIGNATURE ∈ ([2, 0, 1] : List Int) ∧
      Model.types.Policy_UNKNOWN ≠ Model.types.Policy_SIGNATURE ∧
      Model.types.Policy_MSP ≠ Model.types.Policy_SIGNATURE ∧
      (newResources.policyProviderMap Model.collaborators Model.types [2, 0, 1] 0
        World.empty).1 = [(1, 0)] :=
  ⟨by decide, by decide, by decide, by decide,
    (newResources_policyProviderMap Model.collaborators Model.types [2, 0, 1] 0 World.empty
      (by decide) (by decide) (by decide) (by decide)).1⟩

end Registry

/-! ## The root coordinator -/

section Coordinator

variable {W V : Type}

/-- C1: for every list of group names of length one, `initializer.BeginConfig` returns a nil
error and a list of exactly one handler, the channel-config handler of the bundle (the
pointer the `ChannelConfig` accessor returns). -/
theorem initializer_BeginConfig_single (c : Collaborators W V) (i : initializer)
    (groups : List String) (s : State W) (h : groups.length = 1) :
    (initializer.BeginConfig c i groups s).1 =
        Outcome.returned (some [Handler.object i.resources.ChannelConfig], none) ∧
      len (some [Handler.object i.resources.ChannelConfig]) = 1 := by
  simp [initializer.BeginConfig, h, resources.ChannelConfig, len]

/-- Witness of C1 on the bundle built by `NewInitializer`, with the one name "Channel". -/
theorem initializer_BeginConfig_single_witness :
    ["Channel"].length = 1 ∧
      (initializer.BeginConfig Model.collaborators Model.bundle.1 ["Channel"] Model.start).1 =
        Outcome.returned (some [Handler.object 5], none) :=
  ⟨by decide,
    (initializer_BeginConfig_single Model.collaborators Model.bundle.1 ["Channel"] Model.start
      (by decide)).1⟩

/-- C2: for every list of group names whose length is not one, `initializer.BeginConfig`
panics: it returns neither handlers nor an error, and the state is the one it was called
in, so no `BeginConfig` of the membership handler has been invoked. -/
theorem initializer_BeginConfig_panics (c : Collaborators W V) (i : initializer)
    (groups : List String) (s : State W) (h : groups.length ≠ 1) :
    initializer.BeginConfig c i groups s =
      (Outcome.panicked "Initializer only supports having one root group", s) := by
  simp [initializer.BeginConfig, h]

/-- Witness of C2 with two group names. -/
theorem initializer_BeginConfig_panics_witness :
    ["Channel", "Other"].length ≠ 1 ∧
      (initializer.BeginConfig Model.collaborators Model.bundle.1 ["Channel", "Other"]
        Model.start).1 = Outcome.panicked "Initializer only supports having one root group" :=
  ⟨by decide,
    congrArg Prod.fst
      (initializer_BeginConfig_panics Model.collaborators Model.bundle.1 ["Channel", "Other"]
        Model.start (by decide))⟩

/-- C3: for every key, every value and every state (a transaction in progress or not),
`initializer.ProposeConfig` returns a non-nil error and leaves the state of every
sub-manager as it was, making no call on any of them. -/
theorem initializer_ProposeConfig_fails (i : initializer) (key : String) (value : V)
    (s : State W) :
    (initializer.ProposeConfig i key value s).1 ≠ none ∧
      (initializer.ProposeConfig i key value s).2 = s ∧
      (initializer.ProposeConfig i key value s).1 =
        some "Programming error, this should never be invoked" := by
  simp [initializer.ProposeConfig]

/-- C9: for every list of one group name, `initializer.BeginConfig` makes exactly one call,
`BeginConfig` on the membership handler, and the state it returns in is the one that call
leaves; a `ProposeConfig` on the returned handler therefore runs in a world in which the
membership handler has begun. -/
theorem initializer_BeginConfig_msp_first (c : Collaborators W V) (i : initializer)
    (groups : List String) (s : State W) (h : groups.length = 1) :
    (initializer.BeginConfig c i groups s).2 =
        { world := c.mspBeginConfig i.resources.mspConfigHandler s.world,
          calls := s.calls ++
            [{ receiver := i.resources.mspConfigHandler, method := Method.BeginConfig }] } ∧
      ∀ (key : String) (value : V),
        (Handler.ProposeConfig c (Handler.object i.resources.channelConfig) key value
            (initializer.BeginConfig c i groups s).2).1 =
          Outcome.returned
            (c.objectProposeConfig i.resources.channelConfig key value
              (c.mspBeginConfig i.resources.mspConfigHandler s.world)).1 := by
  simp [initializer.BeginConfig, h, MSPConfigHandler.BeginConfig, State.record,
    Handler.ProposeConfig]

/-- Witness of C9: on the bundle, the only call is `BeginConfig` on the membership handler. -/
theorem initializer_BeginConfig_msp_first_witness :
    ["Channel"].length = 1 ∧
      (initializer.BeginConfig Model.collaborators Model.bundle.1 ["Channel"]
        Model.start).2.calls = [{ receiver := 0, method := Method.BeginConfig }] :=
  ⟨by decide,
    congrArg State.calls
      (initializer_BeginConfig_msp_first Model.collaborators Model.bundle.1 ["Channel"]
        Model.start (by decide)).1⟩

/-- C7, as stated, fails: after `BeginConfig` on the coordinator, a `BeginConfig` and a
`ProposeConfig` on the handler it returned, the coordinator's `RollbackConfig` leaves the
value staged in that channel-config handler in place (nothing was staged there before the
transaction); only the membership handler is rolled back.  In a further transaction made
of the coordinator's `BeginConfig` and one `ProposeConfig` on the returned handler alone,
the value staged since that `BeginConfig` is again still staged after `RollbackConfig`. -/
theorem initializer_RollbackConfig_keeps_channel_staged :
    Model.first
        (initializer.BeginConfig Model.collaborators Model.bundle.1 ["Channel"]
          Model.start).1 = Handler.object Model.bundle.1.resources.channelConfig ∧
      (Model.start.world.objects Model.bundle.1.resources.channelConfig).staged = none ∧
      ((initializer.RollbackConfig Model.collaborators Model.bundle.1
          Model.staged).world.objects Model.bundle.1.resources.channelConfig).staged =
        some [("BatchSize", 10)] ∧
      ((initializer.RollbackConfig Model.collaborators Model.bundle.1
          Model.staged).world.objects Model.bundle.1.resources.mspConfigHandler).staged =
        none ∧
      ((initializer.RollbackConfig Model.collaborators Model.bundle.1
          (Model.stagedAgain
            (initializer.RollbackConfig Model.collaborators Model.bundle.1
              Model.staged))).world.objects Model.bundle.1.resources.channelConfig).staged =
        some [("BatchSize", 10), ("BatchTimeout", 2)] := by
  decide

/-- C7, amended: after a `BeginConfig` and any sequence of `ProposeConfig` calls, the
coordinator's `RollbackConfig` makes exactly one call, `RollbackConfig` on the membership
handler, and the world it leaves is the one that call leaves; whatever the membership
handler's rollback does not change (the state staged in the channel-config handler, in
particular) is left as it was. -/
theorem initializer_RollbackConfig_msp_only (c : Collaborators W V) (i : initializer)
    (groups : List String) (ps : List (Handler × String × V)) (s : State W)
    (h : groups.length = 1) :
    (initializer.RollbackConfig c i
        (proposeAll c ps (initializer.BeginConfig c i groups s).2)).world =
        c.mspRollbackConfig i.resources.mspConfigHandler
          (proposeAll c ps (initializer.BeginConfig c i groups s).2).world ∧
      (initializer.RollbackConfig c i
        (proposeAll c ps (initializer.BeginConfig c i groups s).2)).calls =
        (proposeAll c ps (initializer.BeginConfig c i groups s).2).calls ++
          [{ receiver := i.resources.mspConfigHandler, method := Method.RollbackConfig }] ∧
      (initializer.BeginConfig c i groups s).2.calls =
        s.calls ++ [{ receiver := i.resources.mspConfigHandler, method := Method.BeginConfig }] ∧
      ∀ {α : Type} (obs : W → α),
        (∀ w : W, obs (c.mspRollbackConfig i.resources.mspConfigHandler w) = obs w) →
          obs (initializer.RollbackConfig c i
              (proposeAll c ps (initializer.BeginConfig c i groups s).2)).world =
            obs (proposeAll c ps (initializer.BeginConfig c i groups s).2).world := by
  refine ⟨rfl, rfl, ?_, ?_⟩
  · simp [initializer.BeginConfig, h, MSPConfigHandler.BeginConfig, State.record]
  · intro α obs hobs
    exact hobs _

/-- Witness of C7, amended, on the bundle: the log after the transaction and the rollback. -/
theorem initializer_RollbackConfig_msp_only_witness :
    ["Channel"].length = 1 ∧
      (initializer.RollbackConfig Model.collaborators Model.bundle.1
        (proposeAll Model.collaborators [(Handler.object 5, "BatchSize", 10)]
          (initializer.BeginConfig Model.collaborators Model.bundle.1 ["Channel"]
            Model.start).2)).calls =
        (proposeAll Model.collaborators [(Handler.object 5, "BatchSize", 10)]
          (initializer.BeginConfig Model.collaborators Model.bundle.1 ["Channel"]
            Model.start).2).calls ++ [{ receiver := 0, method := Method.RollbackConfig }] :=
  ⟨by decide,
    (initializer_RollbackConfig_msp_only Model.collaborators Model.bundle.1 ["Channel"]
      [(Handler.object 5, "BatchSize", 10)] Model.start (by decide)).2.1⟩

/-- C8, as stated, fails: after `BeginConfig` on the coordinator, a `BeginConfig` and a
successful `ProposeConfig` on the handler it returned, the coordinator's `CommitConfig`
does not make the value staged in that channel-config handler visible: it stays staged and
the handler's visible values are as before; only the membership handler is committed.  In
a further transaction made of the coordinator's `BeginConfig` and one successful
`ProposeConfig` on the returned handler alone, the value staged since that `BeginConfig`
is again not visible after `CommitConfig`. -/
theorem initializer_CommitConfig_keeps_channel_staged :
    Model.first
        (initializer.BeginConfig Model.collaborators Model.bundle.1 ["Channel"]
          Model.start).1 = Handler.object Model.bundle.1.resources.channelConfig ∧
      (Model.staged.world.objects Model.bundle.1.resources.channelConfig).staged =
        some [("BatchSize", 10)] ∧
      ((initializer.CommitConfig Model.collaborators Model.bundle.1
          Model.staged).world.objects Model.bundle.1.resources.channelConfig).visible = [] ∧
      ((initializer.CommitConfig Model.collaborators Model.bundle.1
          Model.staged).world.objects Model.bundle.1.resources.channelConfig).staged =
        some [("BatchSize", 10)] ∧
      ((initializer.CommitConfig Model.collaborators Model.bundle.1
          Model.staged).world.objects Model.bundle.1.resources.mspConfigHandler).staged =
        none ∧
      (Handler.ProposeConfig Model.collaborators
          (Handler.object Model.bundle.1.resources.channelConfig) "BatchTimeout" 2
          (initializer.BeginConfig Model.collaborators Model.bundle.1 ["Channel"]
            (initializer.CommitConfig Model.collaborators Model.bundle.1
              Model.staged)).2).1 = Outcome.returned none ∧
      ((initializer.CommitConfig Model.collaborators Model.bundle.1
          (Model.stagedAgain
            (initializer.CommitConfig Model.collaborators Model.bundle.1
              Model.staged))).world.objects Model.bundle.1.resources.channelConfig).visible =
        [] ∧
      ((initializer.CommitConfig Model.collaborators Model.bundle.1
          (Model.stagedAgain
            (initializer.CommitConfig Model.collaborators Model.bundle.1
              Model.staged))).world.objects Model.bundle.1.resources.channelConfig).staged =
        some [("BatchSize", 10), ("BatchTimeout", 2)] := by
  decide

/-- C8, amended: after a `BeginConfig` and any sequence of `ProposeConfig` calls, the
coordinator's `CommitConfig` makes exactly one call, `CommitConfig` on the membership
handler, and the world it leaves is the one that call leaves; it returns no value, hence no
error; whatever the membership handler's commit does not change (the state staged in the
channel-config handler, in particular) is left as it was. -/
theorem initializer_CommitConfig_msp_only (c : Collaborators W V) (i : initializer)
    (groups : List String) (ps : List (Handler × String × V)) (s : State W)
    (h : groups.length = 1) :
    (initializer.CommitConfig c i
        (proposeAll c ps (initializer.BeginConfig c i groups s).2)).world =
        c.mspCommitConfig i.resources.mspConfigHandler
          (proposeAll c ps (initializer.BeginConfig c i groups s).2).world ∧
      (initializer.CommitConfig c i
        (proposeAll c ps (initializer.BeginConfig c i groups s).2)).calls =
        (proposeAll c ps (initializer.BeginConfig c i groups s).2).calls ++
          [{ receiver := i.resources.mspConfigHandler, method := Method.CommitConfig }] ∧
      (initializer.BeginConfig c i groups s).2.calls =
        s.calls ++ [{ receiver := i.resources.mspConfigHandler, method := Method.BeginConfig }] ∧
      ∀ {α : Type} (obs : W → α),
        (∀ w : W, obs (c.mspCommitConfig i.resources.mspConfigHandler w) = obs w) →
          obs (initializer.CommitConfig c i
              (proposeAll c ps (initializer.BeginConfig c i groups s).2)).world =
            obs (proposeAll c ps (initializer.BeginConfig c i groups s).2).world := by
  refine ⟨rfl, rfl, ?_, ?_⟩
  · simp [initializer.BeginConfig, h, MSPConfigHandler.BeginConfig, State.record]
  · intro α obs hobs
    exact hobs _

/-- Witness of C8, amended, on the bundle: the log after the transaction and the commit. -/
theorem initializer_CommitConfig_msp_only_witness :
    ["Channel"].length = 1 ∧
      (initializer.CommitConfig Model.collaborators Model.bundle.1
        (proposeAll Model.collaborators [(Handler.object 5, "BatchSize", 10)]
          (initializer.BeginConfig Model.collaborators Model.bundle.1 ["Channel"]
            Model.start).2)).calls =
        (proposeAll Model.collaborators [(Handler.object 5, "BatchSize", 10)]
          (initializer.BeginConfig Model.collaborators Model.bundle.1 ["Channel"]
            Model.start).2).calls ++ [{ receiver := 0, method := Method.CommitConfig }] :=
  ⟨by decide,
    (initializer_CommitConfig_msp_only Model.collaborators Model.bundle.1 ["Channel"]
      [(Handler.object 5, "BatchSize", 10)] Model.start (by decide)).2.1⟩

end Coordinator

/-! ## The import adapter -/

section Adapter

variable {W V : Type}

/-- C4: for every wrapped policy manager, key, value and state, `importHack.ProposeConfig`
returns a non-nil error and leaves the state as it was: no call reaches the wrapped manager,
whatever the imported packages do; the same holds when it is called through the interface. -/
theorem importHack_ProposeConfig_fails (ih : importHack) (key : String) (value : V)
    (s : State W) :
    (importHack.ProposeConfig ih key value s).1 ≠ none ∧
      (importHack.ProposeConfig ih key value s).2 = s ∧
      ∀ c : Collaborators W V,
        Handler.ProposeConfig c (Handler.importHack ih) key value s =
          (Outcome.returned (some "Temporary hack"), s) := by
  simp [importHack.ProposeConfig, Handler.ProposeConfig]

/-- C10: when the wrapped manager's `BeginConfig` returns an error `e`,
`importHack.BeginConfig` returns the nil list and that error; and in every case the error it
returns is the one the wrapped manager returned, so it is non-nil only when that one is. -/
theorem importHack_BeginConfig_error (c : Collaborators W V) (ih : importHack)
    (groups : List String) (s : State W) (e : String)
    (h : (c.policyBeginConfig ih.ManagerImpl groups s.world).1.2 = some e) :
    (importHack.BeginConfig c ih groups s).1 = (none, some e) ∧
      ∀ (groups2 : List String) (s2 : State W),
        (importHack.BeginConfig c ih groups2 s2).1.2 =
          (c.policyBeginConfig ih.ManagerImpl groups2 s2.world).1.2 := by
  constructor
  · simp [importHack.BeginConfig, ManagerImpl.BeginConfig, h]
  · intro groups2 s2
    unfold importHack.BeginConfig ManagerImpl.BeginConfig
    by_cases he : (c.policyBeginConfig ih.ManagerImpl groups2 s2.world).1.2 = none
    · simp [he]
    · simp [he]

/-- Witness of C10: the policy manager at address 0 does not recognize "Admins". -/
theorem importHack_BeginConfig_error_witness :
    (Model.collaborators.policyBeginConfig 0 ["Writers", "Admins"]
        Model.policyWorld.world).1.2 = some "unrecognized child group" ∧
      (importHack.BeginConfig Model.collaborators { ManagerImpl := 0 } ["Writers", "Admins"]
        Model.policyWorld).1 = (none, some "unrecognized child group") :=
  ⟨by decide,
    (importHack_BeginConfig_error Model.collaborators { ManagerImpl := 0 }
      ["Writers", "Admins"] Model.policyWorld "unrecognized child group" (by decide)).1⟩

/-- The fill loop of `importHack.BeginConfig`, started at the end of the part already
filled, overwrites the remaining slots with the wrapped policy managers in order. -/
theorem importHack_fill_append (policyManagers : List Ptr) :
    ∀ (filled rest : List Handler), rest.length = policyManagers.length →
      importHack.BeginConfig.fill policyManagers filled.length (filled ++ rest) =
        filled ++ policyManagers.map (fun pm => Handler.importHack { ManagerImpl := pm }) := by
  induction policyManagers with
  | nil =>
    intro filled rest hlen
    have hrest : rest = [] := List.length_eq_zero.mp hlen
    simp [importHack.BeginConfig.fill, hrest]
  | cons pm pms ih =>
    intro filled rest hlen
    cases rest with
    | nil => simp at hlen
    | cons x xs =>
      have hxs : xs.length = pms.length := by simpa using hlen
      have hstep := ih (filled ++ [Handler.importHack { ManagerImpl := pm }]) xs hxs
      simp only [List.length_append, List.length_singleton, List.append_assoc,
        List.singleton_append] at hstep
      simp only [importHack.BeginConfig.fill, List.map_cons]
      have hset : (filled ++ x :: xs).set filled.length
          (Handler.importHack { ManagerImpl := pm }) =
          filled ++ Handler.importHack { ManagerImpl := pm } :: xs := by
        simp
      rw [hset, hstep]

/-- The fill loop over a freshly made slice yields the wrapped policy managers in order. -/
theorem importHack_fill_replicate (policyManagers : List Ptr) :
    importHack.BeginConfig.fill policyManagers 0
        (List.replicate policyManagers.length Handler.nil) =
      policyManagers.map (fun pm => Handler.importHack { ManagerImpl := pm }) := by
  have h := importHack_fill_append policyManagers []
    (List.replicate policyManagers.length Handler.nil) (by simp)
  simpa using h

/-- The length `len` reports is the number of elements `range` visits. -/
theorem len_eq_length_elems {α : Type} (xs : Slice α) : len xs = (elems xs).length := by
  cases xs <;> rfl

/-- What `importHack.BeginConfig` returns when the wrapped manager returns no error. -/
theorem importHack_BeginConfig_ok (c : Collaborators W V) (ih : importHack)
    (groups : List String) (s : State W)
    (h : (c.policyBeginConfig ih.ManagerImpl groups s.world).1.2 = none) :
    (importHack.BeginConfig c ih groups s).1 =
      (some ((elems (c.policyBeginConfig ih.ManagerImpl groups s.world).1.1).map
        (fun pm => Handler.importHack { ManagerImpl := pm })), none) := by
  simp [importHack.BeginConfig, ManagerImpl.BeginConfig, h, len_eq_length_elems,
    importHack_fill_replicate]

/-- Every handler below an import adapter is an import adapter. -/
theorem Below_importHack (c : Collaborators W V) {h hd : Handler} (hb : Below c h hd) :
    (∃ ih : importHack, h = Handler.importHack ih) →
      ∃ ih2 : importHack, hd = Handler.importHack ih2 := by
  induction hb with
  | child hbegin hmem =>
    rename_i h0 h1 groups s s1 hs
    rintro ⟨ih, rfl⟩
    simp only [Handler.BeginConfig, Prod.mk.injEq, Outcome.returned.injEq] at hbegin
    by_cases herr : (c.policyBeginConfig ih.ManagerImpl groups s.world).1.2 = none
    · rw [importHack_BeginConfig_ok c ih groups s herr] at hbegin
      simp only [Prod.mk.injEq, Option.some.injEq, and_true] at hbegin
      rw [← hbegin.1] at hmem
      obtain ⟨pm, _, hpm⟩ := List.mem_map.mp hmem
      exact ⟨{ ManagerImpl := pm }, hpm.symm⟩
    · exfalso
      have hnone : (importHack.BeginConfig c ih groups s).1.1 = none := by
        simp [importHack.BeginConfig, ManagerImpl.BeginConfig, herr]
      rw [hbegin.1] at hnone
      simp at hnone
  | deeper _ _ ih1 ih2 =>
    intro hsrc
    exact ih2 (ih1 hsrc)

/-- C5: when the wrapped manager's `BeginConfig` returns no error and children `c_1..c_n`,
`importHack.BeginConfig` returns a nil error and exactly `n` handlers, the `i`-th being
an import adapter around `c_i`; every handler below the adapter, at any depth, is
an import adapter, and `ProposeConfig` on it fails without changing the state. -/
theorem importHack_BeginConfig_wraps (c : Collaborators W V) (ih : importHack)
    (groups : List String) (s : State W)
    (h : (c.policyBeginConfig ih.ManagerImpl groups s.world).1.2 = none) :
    (importHack.BeginConfig c ih groups s).1 =
        (some ((elems (c.policyBeginConfig ih.ManagerImpl groups s.world).1.1).map
          (fun pm => Handler.importHack { ManagerImpl := pm })), none) ∧
      len (importHack.BeginConfig c ih groups s).1.1 =
        len (c.policyBeginConfig ih.ManagerImpl groups s.world).1.1 ∧
      ∀ hd : Handler, Below c (Handler.importHack ih) hd →
        (∃ ih2 : importHack, hd = Handler.importHack ih2) ∧
          ∀ (key : String) (value : V) (s2 : State W),
            Handler.ProposeConfig c hd key value s2 =
              (Outcome.returned (some "Temporary hack"), s2) := by
  have hok := importHack_BeginConfig_ok c ih groups s h
  refine ⟨hok, ?_, ?_⟩
  · rw [hok, len_eq_length_elems, len_eq_length_elems]
    simp [elems]
  · intro hd hb
    obtain ⟨ih2, rfl⟩ := Below_importHack c hb ⟨ih, rfl⟩
    exact ⟨⟨ih2, rfl⟩, fun key value s2 => by
      simp [Handler.ProposeConfig, importHack.ProposeConfig]⟩

/-- Witness of C5: the policy manager at address 0 recognizes "Writers" and "Readers". -/
theorem importHack_BeginConfig_wraps_witness :
    (Model.collaborators.policyBeginConfig 0 ["Writers", "Readers"]
        Model.policyWorld.world).1.2 = none ∧
      (importHack.BeginConfig Model.collaborators { ManagerImpl := 0 } ["Writers", "Readers"]
        Model.policyWorld).1 =
        (some [Handler.importHack { ManagerImpl := 11 },
          Handler.importHack { ManagerImpl := 10 }], none) :=
  ⟨by decide,
    (importHack_BeginConfig_wraps Model.collaborators { ManagerImpl := 0 }
      ["Writers", "Readers"] Model.policyWorld (by decide)).1⟩

end Adapter

end configtx
